import Mathlib

/-!
Verification of the Wallet Wizard client core: a shallow embedding of the
domain state store (src/context/AppContext.tsx), the aggregation and date
utilities (src/lib/utils.ts), the budget form (src/unnamed/part_008 with its
save handler in src/components/tabs/CategoriesTab.tsx) and the remote sync
adapter (src/unnamed/part_001 over src/lib/supabase.ts), together with
theorems settling the behavioural claims about them.

Modelling conventions:
- decimal amounts are rationals;
- a date string is modeled by the numeric value of new Date(s): the code only
  ever compares parsed dates, and ISO calendar-date strings compare the same
  way as their timestamps;
- fields that the TypeScript types declare as required but that are absent on
  some runtime objects (category_name, spent, remaining on budgets) are
  modeled as Option;
- the remote store is modeled as an in-memory table set; each adapter
  operation also returns the list of requests it issued to the store.
-/

/-- Transaction kinds (src/types/index.ts, TransactionType). -/
inductive TransactionType where
  | income
  | expense
  | transfer
  deriving DecidableEq, Repr

/-- Category kinds (src/types/index.ts, Category.type). -/
inductive CategoryKind where
  | income
  | expense
  deriving DecidableEq, Repr

/-- A transaction record (src/types/index.ts, interface Transaction). -/
structure Transaction where
  id : String
  amount : ℚ
  type : TransactionType
  category : String
  account : String
  date : Int
  note : Option String
  created_at : String
  updated_at : String
  deriving DecidableEq, Repr

/-- A category record (src/types/index.ts, interface Category). -/
structure Category where
  id : String
  name : String
  type : CategoryKind
  created_at : String
  updated_at : String
  deriving DecidableEq, Repr

/-- An account record (src/types/index.ts, interface Account). -/
structure Account where
  id : String
  name : String
  initial_balance : ℚ
  current_balance : ℚ
  created_at : String
  updated_at : String
  deriving DecidableEq, Repr

/-- A budget record (src/types/index.ts, interface Budget). category_name,
spent and remaining are declared as required in TypeScript but are absent on
budgets built by the dialog and on adapter create/update results, so they are
modeled as Option fields; the adapter and the fetch mapping fill them in. -/
structure Budget where
  id : String
  category_id : String
  category_name : Option String
  limit : ℚ
  spent : Option ℚ
  remaining : Option ℚ
  month : String
  created_at : String
  updated_at : String
  deriving DecidableEq, Repr

/-- Period kinds (src/types/index.ts, PeriodType). -/
inductive PeriodType where
  | daily
  | weekly
  | monthly
  | threeMonths
  | fourMonths
  | yearly
  deriving DecidableEq, Repr

/-- Filter settings (src/types/index.ts, interface FilterState); startDate and
endDate hold parsed calendar dates. -/
structure FilterState where
  period : PeriodType
  startDate : Int
  endDate : Int
  showTotal : Bool
  carryOver : Bool
  searchQuery : String
  deriving DecidableEq, Repr

/-- A Partial FilterState payload: each field is present or absent. -/
structure FilterPatch where
  period : Option PeriodType := none
  startDate : Option Int := none
  endDate : Option Int := none
  showTotal : Option Bool := none
  carryOver : Option Bool := none
  searchQuery : Option String := none
  deriving DecidableEq, Repr

/-- The four resource keys of the loading and error maps
(src/context/AppContext.tsx, AppState isLoading and errors). -/
inductive Resource where
  | transactions
  | categories
  | accounts
  | budgets
  deriving DecidableEq, Repr

/-- Per-resource loading flags (AppState.isLoading). -/
structure LoadingFlags where
  transactions : Bool
  categories : Bool
  accounts : Bool
  budgets : Bool
  deriving DecidableEq, Repr

/-- Keyed update of a loading flag, mirroring the computed-key spread in the
SET_LOADING reducer arm. -/
def LoadingFlags.setFlag (f : LoadingFlags) (k : Resource) (v : Bool) : LoadingFlags :=
  match k with
  | .transactions => { f with transactions := v }
  | .categories => { f with categories := v }
  | .accounts => { f with accounts := v }
  | .budgets => { f with budgets := v }

/-- Per-resource error strings (AppState.errors). -/
structure ErrorFlags where
  transactions : Option String
  categories : Option String
  accounts : Option String
  budgets : Option String
  deriving DecidableEq, Repr

/-- Keyed update of an error entry, mirroring the computed-key spread in the
SET_ERROR reducer arm. -/
def ErrorFlags.setFlag (e : ErrorFlags) (k : Resource) (v : Option String) : ErrorFlags :=
  match k with
  | .transactions => { e with transactions := v }
  | .categories => { e with categories := v }
  | .accounts => { e with accounts := v }
  | .budgets => { e with budgets := v }

/-- The application state (src/context/AppContext.tsx, interface AppState).
currentPeriod is a Date, modeled like all dates by its numeric value. -/
structure AppState where
  filterState : FilterState
  currentPeriod : Int
  transactions : List Transaction
  categories : List Category
  accounts : List Account
  budgets : List Budget
  isLoading : LoadingFlags
  errors : ErrorFlags
  deriving DecidableEq, Repr

/-- The closed action union (src/context/AppContext.tsx, type AppAction). The
extra unrecognized constructor stands for any runtime action value outside the
listed ones, which the reducer sends to its default arm. -/
inductive AppAction where
  | setFilterState (payload : FilterPatch)
  | setCurrentPeriod (payload : Int)
  | setTransactions (payload : List Transaction)
  | addTransaction (payload : Transaction)
  | updateTransaction (payload : Transaction)
  | deleteTransaction (payload : String)
  | setCategories (payload : List Category)
  | addCategory (payload : Category)
  | updateCategory (payload : Category)
  | deleteCategory (payload : String)
  | setAccounts (payload : List Account)
  | addAccount (payload : Account)
  | updateAccount (payload : Account)
  | deleteAccount (payload : String)
  | setBudgets (payload : List Budget)
  | addBudget (payload : Budget)
  | updateBudget (payload : Budget)
  | deleteBudget (payload : String)
  | setLoading (key : Resource) (value : Bool)
  | setError (key : Resource) (value : Option String)
  | unrecognized
  deriving DecidableEq, Repr

/-- Shallow merge of a Partial FilterState payload into the filter state,
mirroring the object spread in the SET_FILTER_STATE reducer arm. -/
def FilterState.merge (fs : FilterState) (p : FilterPatch) : FilterState :=
  { period := p.period.getD fs.period
    startDate := p.startDate.getD fs.startDate
    endDate := p.endDate.getD fs.endDate
    showTotal := p.showTotal.getD fs.showTotal
    carryOver := p.carryOver.getD fs.carryOver
    searchQuery := p.searchQuery.getD fs.searchQuery }

/-- The state transition function (src/context/AppContext.tsx, appReducer). -/
def appReducer (state : AppState) (action : AppAction) : AppState :=
  match action with
  | .setFilterState payload =>
      { state with filterState := state.filterState.merge payload }
  | .setCurrentPeriod payload =>
      { state with currentPeriod := payload }
  | .setTransactions payload =>
      { state with transactions := payload }
  | .addTransaction payload =>
      { state with transactions := payload :: state.transactions }
  | .updateTransaction payload =>
      { state with transactions :=
          state.transactions.map (fun t => if t.id = payload.id then payload else t) }
  | .deleteTransaction payload =>
      { state with transactions := state.transactions.filter (fun t => t.id ≠ payload) }
  | .setCategories payload =>
      { state with categories := payload }
  | .addCategory payload =>
      { state with categories := state.categories ++ [payload] }
  | .updateCategory payload =>
      { state with categories :=
          state.categories.map (fun c => if c.id = payload.id then payload else c) }
  | .deleteCategory payload =>
      { state with categories := state.categories.filter (fun c => c.id ≠ payload) }
  | .setAccounts payload =>
      { state with accounts := payload }
  | .addAccount payload =>
      { state with accounts := state.accounts ++ [payload] }
  | .updateAccount payload =>
      { state with accounts :=
          state.accounts.map (fun a => if a.id = payload.id then payload else a) }
  | .deleteAccount payload =>
      { state with accounts := state.accounts.filter (fun a => a.id ≠ payload) }
  | .setBudgets payload =>
      { state with budgets := payload }
  | .addBudget payload =>
      { state with budgets := state.budgets ++ [payload] }
  | .updateBudget payload =>
      { state with budgets :=
          state.budgets.map (fun b => if b.id = payload.id then payload else b) }
  | .deleteBudget payload =>
      { state with budgets := state.budgets.filter (fun b => b.id ≠ payload) }
  | .setLoading key value =>
      { state with isLoading := state.isLoading.setFlag key value }
  | .setError key value =>
      { state with errors := state.errors.setFlag key value }
  | .unrecognized => state

/-- The outcome of the single remote adapter call an action triggers, as
asyncDispatch observes it: an error string or success, plus the returned
record for budget create/update. The adapter functions catch internally and
always resolve to a data/error pair, so the dispatch wrapper catch arms
(which would only set the same error field) are unreachable. -/
structure RemoteResult where
  error : Option String
  budgetData : Option Budget
  deriving DecidableEq, Repr

/-- Whether an action is one of the three budget mutations that asyncDispatch
withholds from the synchronous dispatch (src/context/AppContext.tsx line 350). -/
def isBudgetMutation : AppAction → Bool
  | .addBudget _ => true
  | .updateBudget _ => true
  | .deleteBudget _ => true
  | _ => false

/-- The async dispatch wrapper (src/context/AppContext.tsx, asyncDispatch):
every action except the three budget mutations is dispatched synchronously
first; then the matching remote call runs and, on error, SET_ERROR is
dispatched for that resource; budget mutations dispatch their local update
only after a successful remote call (using the returned record for
create/update). -/
def asyncDispatch (state : AppState) (action : AppAction) (r : RemoteResult) : AppState :=
  let st1 := if isBudgetMutation action then state else appReducer state action
  match action with
  | .addTransaction _ | .updateTransaction _ | .deleteTransaction _ =>
      match r.error with
      | some e => appReducer st1 (.setError .transactions (some e))
      | none => st1
  | .addCategory _ | .updateCategory _ | .deleteCategory _ =>
      match r.error with
      | some e => appReducer st1 (.setError .categories (some e))
      | none => st1
  | .addAccount _ | .updateAccount _ | .deleteAccount _ =>
      match r.error with
      | some e => appReducer st1 (.setError .accounts (some e))
      | none => st1
  | .addBudget _ =>
      match r.error with
      | some e => appReducer st1 (.setError .budgets (some e))
      | none =>
          match r.budgetData with
          | some data => appReducer st1 (.addBudget data)
          | none => st1
  | .updateBudget _ =>
      match r.error with
      | some e => appReducer st1 (.setError .budgets (some e))
      | none =>
          match r.budgetData with
          | some data => appReducer st1 (.updateBudget data)
          | none => st1
  | .deleteBudget payload =>
      match r.error with
      | some e => appReducer st1 (.setError .budgets (some e))
      | none => appReducer st1 (.deleteBudget payload)
  | _ => st1

/-- Balance over a transaction list (src/lib/utils.ts, calculateBalance):
a reduce that adds income amounts, subtracts expense amounts, and skips
transfers, starting from 0. -/
def calculateBalance (transactions : List Transaction) : ℚ :=
  transactions.foldl
    (fun balance transaction =>
      if transaction.type = TransactionType.income then balance + transaction.amount
      else if transaction.type = TransactionType.expense then balance - transaction.amount
      else balance)
    0

/-- Total income (src/lib/utils.ts, calculateTotalIncome): filter to income
then sum the amounts. -/
def calculateTotalIncome (transactions : List Transaction) : ℚ :=
  (transactions.filter (fun t => t.type = TransactionType.income)).foldl
    (fun total transaction => total + transaction.amount) 0

/-- Total expenses (src/lib/utils.ts, calculateTotalExpenses): filter to
expense then sum the amounts. -/
def calculateTotalExpenses (transactions : List Transaction) : ℚ :=
  (transactions.filter (fun t => t.type = TransactionType.expense)).foldl
    (fun total transaction => total + transaction.amount) 0

/-- Substring containment over character lists: q occurs contiguously in s.
Implements the semantics of the JavaScript String includes method. -/
def listIncludes (s q : List Char) : Bool :=
  match s with
  | [] => q.isEmpty
  | _ :: tail => q.isPrefixOf s || listIncludes tail q

/-- s.includes(q) for strings. -/
def strIncludes (s q : String) : Bool :=
  listIncludes s.toList q.toList

/-- The per-transaction predicate of useFilteredTransactions
(src/context/AppContext.tsx lines 522-541): reject dates outside
[startDate, endDate]; with a non-empty search query, keep the transaction
iff the lowercased query occurs in the lowercased note (a missing note never
matches) or in the lowercased category name; with an empty query keep it. -/
def txnMatchesFilter (fs : FilterState) (t : Transaction) : Bool :=
  if t.date < fs.startDate || t.date > fs.endDate then false
  else if fs.searchQuery ≠ "" then
    let query := fs.searchQuery.toLower
    let matchesNote :=
      match t.note with
      | some n => strIncludes n.toLower query
      | none => false
    let matchesCategory := strIncludes t.category.toLower query
    matchesNote || matchesCategory
  else true

/-- The filtered-transactions selector (src/context/AppContext.tsx,
useFilteredTransactions). -/
def useFilteredTransactions (state : AppState) : List Transaction :=
  state.transactions.filter (txnMatchesFilter state.filterState)

/-- Day of week of an absolute day number (days since the epoch,
1970-01-01, a Thursday): 0 = Sunday .. 6 = Saturday, as returned by the
JavaScript Date getDay method. -/
def jsGetDay (d : Int) : Int :=
  (d + 4) % 7

/-- The weekly arm of getDateRange (src/lib/utils.ts lines 133-138), over
dates as absolute day numbers: setDate(getDate() - day) moves the start back
by getDay() days to the week's Sunday, and setDate(getDate() + (6 - day))
moves the end forward to the following Saturday. -/
def getDateRangeWeekly (baseDate : Int) : Int × Int :=
  let day := jsGetDay baseDate
  (baseDate - day, baseDate + (6 - day))

/-- Budget form data (src/types/index.ts, BudgetFormData; the useForm record
of src/unnamed/part_008). -/
structure BudgetFormData where
  category_id : String
  limit : ℚ
  month : String
  deriving DecidableEq, Repr

/-- JavaScript truthiness of budget?.id: false when the budget prop is null
or its id is the empty string. -/
def budgetHasId : Option Budget → Bool
  | none => false
  | some b => b.id ≠ ""

/-- The react-hook-form validation registered on the limit input of the
budget dialog (src/unnamed/part_008 lines 183-186): required, plus a min rule
with value 0 whose message reads Limit must be positive. none models an
empty number input (required fails); the min rule fails exactly when the
value is below 0. -/
def limitFieldPasses : Option ℚ → Bool
  | none => false
  | some v => decide (0 ≤ v)

/-- The budget dialog submit handler (src/unnamed/part_008, onSubmit),
returning the budget handed to onSave, or none when the duplicate
(category_id, month) pre-check rejects the submission before onSave is
invoked. freshId stands for the generateId() call and now for the
toISOString() of the current time. The category lookup in the source feeds
only the alert text of the rejection branch. -/
def onSubmit (budgets : List Budget) (budgetProp : Option Budget)
    (freshId now : String) (data : BudgetFormData) : Option Budget :=
  let existingBudget := budgets.find?
    (fun b => b.category_id = data.category_id ∧ b.month = data.month)
  if existingBudget.isSome && !budgetHasId budgetProp then
    none
  else
    some
      { id :=
          match budgetProp with
          | some b => if b.id = "" then freshId else b.id
          | none => freshId
        category_id := data.category_id
        category_name := none
        limit := data.limit
        spent := none
        remaining := none
        month := data.month
        created_at :=
          match budgetProp with
          | some b => if b.created_at = "" then now else b.created_at
          | none => now
        updated_at := now }

/-- The save path for a new budget: CategoriesTab handleSaveBudget with
selectedBudget null dispatches ADD_BUDGET through asyncDispatch with the
budget produced by onSubmit; when onSubmit rejects, onSave is never called,
so nothing is dispatched and the state is left untouched. -/
def submitNewBudget (state : AppState) (freshId now : String)
    (data : BudgetFormData) (r : RemoteResult) : AppState :=
  match onSubmit state.budgets none freshId now data with
  | none => state
  | some b => asyncDispatch state (.addBudget b) r

/-- A data/error response pair (src/lib/supabase.ts, formatResponse). -/
structure DbResp (α : Type) where
  data : Option α
  error : Option String
  deriving DecidableEq, Repr

/-- A transactions table row: the transaction fields plus the owner. -/
structure TxnRow where
  txn : Transaction
  user_id : String
  deriving DecidableEq, Repr

/-- A categories table row. -/
structure CatRow where
  cat : Category
  user_id : String
  deriving DecidableEq, Repr

/-- An accounts table row. -/
structure AcctRow where
  acct : Account
  user_id : String
  deriving DecidableEq, Repr

/-- A budgets table row: the limit is stored under the internal column name
budget_limit (src/unnamed/part_001); there is no stored spent column in the
schema, so reads of it yield null, modeled as an Option. -/
structure BudgetRow where
  id : String
  user_id : String
  category_id : String
  budget_limit : ℚ
  spent : Option ℚ
  month : String
  created_at : String
  updated_at : String
  deriving DecidableEq, Repr

/-- The remote relational store: one list of rows per table. -/
structure Store where
  transactions : List TxnRow
  categories : List CatRow
  accounts : List AcctRow
  budgets : List BudgetRow
  deriving DecidableEq, Repr

/-- Partial Transaction update payload: absent fields are none. -/
structure TxnPatch where
  id : Option String := none
  amount : Option ℚ := none
  type : Option TransactionType := none
  category : Option String := none
  account : Option String := none
  date : Option Int := none
  note : Option String := none
  created_at : Option String := none
  updated_at : Option String := none
  deriving DecidableEq, Repr

/-- Partial Category update payload. -/
structure CatPatch where
  id : Option String := none
  name : Option String := none
  type : Option CategoryKind := none
  created_at : Option String := none
  updated_at : Option String := none
  deriving DecidableEq, Repr

/-- Partial Account update payload. -/
structure AcctPatch where
  id : Option String := none
  name : Option String := none
  initial_balance : Option ℚ := none
  current_balance : Option ℚ := none
  created_at : Option String := none
  updated_at : Option String := none
  deriving DecidableEq, Repr

/-- Partial Budget update payload (Partial of the client Budget type). -/
structure BudgetPatch where
  id : Option String := none
  category_id : Option String := none
  category_name : Option String := none
  limit : Option ℚ := none
  spent : Option ℚ := none
  remaining : Option ℚ := none
  month : Option String := none
  created_at : Option String := none
  updated_at : Option String := none
  deriving DecidableEq, Repr

/-- The row produced by the transactions update call, spreading the payload
over the row and overwriting updated_at with the current time
(src/unnamed/part_001, updateTransaction). -/
def applyTxnPatch (r : TxnRow) (p : TxnPatch) (now : String) : TxnRow :=
  { r with txn :=
    { id := p.id.getD r.txn.id
      amount := p.amount.getD r.txn.amount
      type := p.type.getD r.txn.type
      category := p.category.getD r.txn.category
      account := p.account.getD r.txn.account
      date := p.date.getD r.txn.date
      note := p.note.or r.txn.note
      created_at := p.created_at.getD r.txn.created_at
      updated_at := now } }

/-- The row produced by the categories update call. -/
def applyCatPatch (r : CatRow) (p : CatPatch) (now : String) : CatRow :=
  { r with cat :=
    { id := p.id.getD r.cat.id
      name := p.name.getD r.cat.name
      type := p.type.getD r.cat.type
      created_at := p.created_at.getD r.cat.created_at
      updated_at := now } }

/-- The row produced by the accounts update call. -/
def applyAcctPatch (r : AcctRow) (p : AcctPatch) (now : String) : AcctRow :=
  { r with acct :=
    { id := p.id.getD r.acct.id
      name := p.name.getD r.acct.name
      initial_balance := p.initial_balance.getD r.acct.initial_balance
      current_balance := p.current_balance.getD r.acct.current_balance
      created_at := p.created_at.getD r.acct.created_at
      updated_at := now } }

/-- The update record the budgets update call sends to the store
(src/unnamed/part_001, updateBudget): only updated_at, the limit mapped to
budget_limit, category_id and month are forwarded, each of the last three
only when present in the payload; every other payload field is discarded. -/
def applyBudgetPatch (r : BudgetRow) (p : BudgetPatch) (now : String) : BudgetRow :=
  { r with
    updated_at := now
    budget_limit := p.limit.getD r.budget_limit
    category_id := p.category_id.getD r.category_id
    month := p.month.getD r.month }

/-- The budget_limit-to-limit read mapping applied by createBudget and
updateBudget on the returned row (src/unnamed/part_001): limit mirrors
budget_limit, spent defaults to 0, remaining is the difference; these two
calls do not add a category_name. -/
def mapBudgetRow (r : BudgetRow) : Budget :=
  { id := r.id
    category_id := r.category_id
    category_name := none
    limit := r.budget_limit
    spent := some (r.spent.getD 0)
    remaining := some (r.budget_limit - r.spent.getD 0)
    month := r.month
    created_at := r.created_at
    updated_at := r.updated_at }

/-- The read mapping applied by fetchBudgets, which additionally sets
category_name to the empty string for the frontend to fill in. -/
def mapBudgetRowFetch (r : BudgetRow) : Budget :=
  { mapBudgetRow r with category_name := some "" }

/-- The response every operation returns when no session exists. -/
def unauthResp (α : Type) : DbResp α :=
  { data := none, error := some "User not authenticated" }

/-- fetchTransactions (src/unnamed/part_001 lines 9-30): gate on the session,
then select the rows owned by the user ordered by date descending. Every
operation returns its response, the store it leaves behind, and the list of
requests it issued. -/
def fetchTransactions (uid : Option String) (store : Store) :
    DbResp (List Transaction) × Store × List String :=
  match uid with
  | none => (unauthResp _, store, [])
  | some u =>
      let rows := (store.transactions.filter (fun r => r.user_id = u)).mergeSort
        (fun a b => b.txn.date ≤ a.txn.date)
      ({ data := some (rows.map (fun r => r.txn)), error := none }, store,
        ["select transactions"])

/-- createTransaction (src/unnamed/part_001 lines 32-58): insert the payload
spread with the owner and fresh timestamps, returning the inserted row. -/
def createTransaction (uid : Option String) (now : String) (store : Store)
    (t : Transaction) : DbResp Transaction × Store × List String :=
  match uid with
  | none => (unauthResp _, store, [])
  | some u =>
      let row : TxnRow := { txn := { t with created_at := now, updated_at := now }, user_id := u }
      ({ data := some row.txn, error := none },
        { store with transactions := store.transactions ++ [row] },
        ["insert transactions"])

/-- updateTransaction (src/unnamed/part_001 lines 60-86): update the row
matching id and owner with the payload plus a fresh updated_at; the trailing
single() call returns the updated row, or an error when no row matched. -/
def updateTransaction (uid : Option String) (now : String) (store : Store)
    (id : String) (p : TxnPatch) : DbResp Transaction × Store × List String :=
  match uid with
  | none => (unauthResp _, store, [])
  | some u =>
      let hit := store.transactions.find? (fun r => r.txn.id = id ∧ r.user_id = u)
      let store' := { store with transactions := (store.transactions.map
        (fun r => if r.txn.id = id ∧ r.user_id = u then applyTxnPatch r p now else r)) }
      match hit with
      | some r => ({ data := some (applyTxnPatch r p now).txn, error := none }, store',
          ["update transactions"])
      | none => ({ data := none, error := some "No rows returned" }, store',
          ["update transactions"])

/-- deleteTransaction (src/unnamed/part_001 lines 88-109): remove the rows
matching id and owner; the response carries only an error slot. -/
def deleteTransaction (uid : Option String) (store : Store) (id : String) :
    Option String × Store × List String :=
  match uid with
  | none => (some "User not authenticated", store, [])
  | some u =>
      (none,
        { store with transactions := (store.transactions.filter
          (fun r => ¬(r.txn.id = id ∧ r.user_id = u))) },
        ["delete transactions"])

/-- fetchCategories (src/unnamed/part_001 lines 113-134): owned rows ordered
by name ascending. -/
def fetchCategories (uid : Option String) (store : Store) :
    DbResp (List Category) × Store × List String :=
  match uid with
  | none => (unauthResp _, store, [])
  | some u =>
      let rows := (store.categories.filter (fun r => r.user_id = u)).mergeSort
        (fun a b => a.cat.name ≤ b.cat.name)
      ({ data := some (rows.map (fun r => r.cat)), error := none }, store,
        ["select categories"])

/-- createCategory (src/unnamed/part_001 lines 136-162). -/
def createCategory (uid : Option String) (now : String) (store : Store)
    (c : Category) : DbResp Category × Store × List String :=
  match uid with
  | none => (unauthResp _, store, [])
  | some u =>
      let row : CatRow := { cat := { c with created_at := now, updated_at := now }, user_id := u }
      ({ data := some row.cat, error := none },
        { store with categories := store.categories ++ [row] },
        ["insert categories"])

/-- updateCategory (src/unnamed/part_001 lines 164-190). -/
def updateCategory (uid : Option String) (now : String) (store : Store)
    (id : String) (p : CatPatch) : DbResp Category × Store × List String :=
  match uid with
  | none => (unauthResp _, store, [])
  | some u =>
      let hit := store.categories.find? (fun r => r.cat.id = id ∧ r.user_id = u)
      let store' := { store with categories := (store.categories.map
        (fun r => if r.cat.id = id ∧ r.user_id = u then applyCatPatch r p now else r)) }
      match hit with
      | some r => ({ data := some (applyCatPatch r p now).cat, error := none }, store',
          ["update categories"])
      | none => ({ data := none, error := some "No rows returned" }, store',
          ["update categories"])

/-- deleteCategory (src/unnamed/part_001 lines 192-213). -/
def deleteCategory (uid : Option String) (store : Store) (id : String) :
    Option String × Store × List String :=
  match uid with
  | none => (some "User not authenticated", store, [])
  | some u =>
      (none,
        { store with categories := (store.categories.filter
          (fun r => ¬(r.cat.id = id ∧ r.user_id = u))) },
        ["delete categories"])

/-- fetchAccounts (src/unnamed/part_001 lines 217-238): owned rows ordered by
name ascending. -/
def fetchAccounts (uid : Option String) (store : Store) :
    DbResp (List Account) × Store × List String :=
  match uid with
  | none => (unauthResp _, store, [])
  | some u =>
      let rows := (store.accounts.filter (fun r => r.user_id = u)).mergeSort
        (fun a b => a.acct.name ≤ b.acct.name)
      ({ data := some (rows.map (fun r => r.acct)), error := none }, store,
        ["select accounts"])

/-- createAccount (src/unnamed/part_001 lines 240-266). -/
def createAccount (uid : Option String) (now : String) (store : Store)
    (a : Account) : DbResp Account × Store × List String :=
  match uid with
  | none => (unauthResp _, store, [])
  | some u =>
      let row : AcctRow := { acct := { a with created_at := now, updated_at := now }, user_id := u }
      ({ data := some row.acct, error := none },
        { store with accounts := store.accounts ++ [row] },
        ["insert accounts"])

/-- updateAccount (src/unnamed/part_001 lines 268-294). -/
def updateAccount (uid : Option String) (now : String) (store : Store)
    (id : String) (p : AcctPatch) : DbResp Account × Store × List String :=
  match uid with
  | none => (unauthResp _, store, [])
  | some u =>
      let hit := store.accounts.find? (fun r => r.acct.id = id ∧ r.user_id = u)
      let store' := { store with accounts := (store.accounts.map
        (fun r => if r.acct.id = id ∧ r.user_id = u then applyAcctPatch r p now else r)) }
      match hit with
      | some r => ({ data := some (applyAcctPatch r p now).acct, error := none }, store',
          ["update accounts"])
      | none => ({ data := none, error := some "No rows returned" }, store',
          ["update accounts"])

/-- deleteAccount (src/unnamed/part_001 lines 296-317). -/
def deleteAccount (uid : Option String) (store : Store) (id : String) :
    Option String × Store × List String :=
  match uid with
  | none => (some "User not authenticated", store, [])
  | some u =>
      (none,
        { store with accounts := (store.accounts.filter
          (fun r => ¬(r.acct.id = id ∧ r.user_id = u))) },
        ["delete accounts"])

/-- fetchBudgets (src/unnamed/part_001 lines 321-351): owned rows ordered by
month descending, each mapped from budget_limit back to limit with spent
defaulted and remaining synthesized, and category_name set to the empty
string. -/
def fetchBudgets (uid : Option String) (store : Store) :
    DbResp (List Budget) × Store × List String :=
  match uid with
  | none => (unauthResp _, store, [])
  | some u =>
      let rows := (store.budgets.filter (fun r => r.user_id = u)).mergeSort
        (fun a b => b.month ≤ a.month)
      ({ data := some (rows.map mapBudgetRowFetch), error := none }, store,
        ["select budgets"])

/-- createBudget (src/unnamed/part_001 lines 353-389): insert an explicit
record carrying the payload limit under the budget_limit column (the store
generates the row id, modeled by freshId), then map the returned row back. -/
def createBudget (uid : Option String) (freshId now : String) (store : Store)
    (budget : Budget) : DbResp Budget × Store × List String :=
  match uid with
  | none => (unauthResp _, store, [])
  | some u =>
      let row : BudgetRow :=
        { id := freshId
          user_id := u
          category_id := budget.category_id
          budget_limit := budget.limit
          spent := none
          month := budget.month
          created_at := now
          updated_at := now }
      ({ data := some (mapBudgetRow row), error := none },
        { store with budgets := store.budgets ++ [row] },
        ["insert budgets"])

/-- updateBudget (src/unnamed/part_001 lines 391-439): build the forwarded
update record (applyBudgetPatch), apply it to the rows matching id and owner,
and map the returned row back; the trailing maybeSingle() yields data null
with no error when no row matched. -/
def updateBudget (uid : Option String) (now : String) (store : Store)
    (id : String) (p : BudgetPatch) : DbResp Budget × Store × List String :=
  match uid with
  | none => (unauthResp _, store, [])
  | some u =>
      let hit := store.budgets.find? (fun r => r.id = id ∧ r.user_id = u)
      let store' := { store with budgets := (store.budgets.map
        (fun r => if r.id = id ∧ r.user_id = u then applyBudgetPatch r p now else r)) }
      match hit with
      | some r => ({ data := some (mapBudgetRow (applyBudgetPatch r p now)), error := none },
          store', ["update budgets"])
      | none => ({ data := none, error := none }, store', ["update budgets"])

/-- deleteBudget (src/unnamed/part_001 lines 441-462). -/
def deleteBudget (uid : Option String) (store : Store) (id : String) :
    Option String × Store × List String :=
  match uid with
  | none => (some "User not authenticated", store, [])
  | some u =>
      (none,
        { store with budgets := (store.budgets.filter
          (fun r => ¬(r.id = id ∧ r.user_id = u))) },
        ["delete budgets"])

/-- C1: the mutation strategy is asymmetric by resource. For
transactions, categories and accounts, every add/update/delete action is
applied to the local state synchronously before the remote call, and a remote
failure only dispatches SET_ERROR for that resource on top of the already
updated state, never reverting the optimistic change; on success nothing
further happens. For budgets, a remote failure leaves every collection
untouched and only sets the budgets error, and the local state is changed
only when the remote call succeeds, applying the record the adapter
returned. -/
theorem c1_mutation_strategy_asymmetry (s : AppState) :
    (∀ t e bd, asyncDispatch s (.addTransaction t) ⟨some e, bd⟩
        = appReducer (appReducer s (.addTransaction t)) (.setError .transactions (some e))) ∧
    (∀ t e bd, (asyncDispatch s (.addTransaction t) ⟨some e, bd⟩).transactions
        = t :: s.transactions) ∧
    (∀ t bd, asyncDispatch s (.addTransaction t) ⟨none, bd⟩ = appReducer s (.addTransaction t)) ∧
    (∀ t e bd, asyncDispatch s (.updateTransaction t) ⟨some e, bd⟩
        = appReducer (appReducer s (.updateTransaction t)) (.setError .transactions (some e))) ∧
    (∀ t bd, asyncDispatch s (.updateTransaction t) ⟨none, bd⟩
        = appReducer s (.updateTransaction t)) ∧
    (∀ i e bd, asyncDispatch s (.deleteTransaction i) ⟨some e, bd⟩
        = appReducer (appReducer s (.deleteTransaction i)) (.setError .transactions (some e))) ∧
    (∀ i bd, asyncDispatch s (.deleteTransaction i) ⟨none, bd⟩
        = appReducer s (.deleteTransaction i)) ∧
    (∀ c e bd, asyncDispatch s (.addCategory c) ⟨some e, bd⟩
        = appReducer (appReducer s (.addCategory c)) (.setError .categories (some e))) ∧
    (∀ c e bd, (asyncDispatch s (.addCategory c) ⟨some e, bd⟩).categories
        = s.categories ++ [c]) ∧
    (∀ c bd, asyncDispatch s (.addCategory c) ⟨none, bd⟩ = appReducer s (.addCategory c)) ∧
    (∀ c e bd, asyncDispatch s (.updateCategory c) ⟨some e, bd⟩
        = appReducer (appReducer s (.updateCategory c)) (.setError .categories (some e))) ∧
    (∀ c bd, asyncDispatch s (.updateCategory c) ⟨none, bd⟩ = appReducer s (.updateCategory c)) ∧
    (∀ i e bd, asyncDispatch s (.deleteCategory i) ⟨some e, bd⟩
        = appReducer (appReducer s (.deleteCategory i)) (.setError .categories (some e))) ∧
    (∀ i bd, asyncDispatch s (.deleteCategory i) ⟨none, bd⟩ = appReducer s (.deleteCategory i)) ∧
    (∀ a e bd, asyncDispatch s (.addAccount a) ⟨some e, bd⟩
        = appReducer (appReducer s (.addAccount a)) (.setError .accounts (some e))) ∧
    (∀ a e bd, (asyncDispatch s (.addAccount a) ⟨some e, bd⟩).accounts
        = s.accounts ++ [a]) ∧
    (∀ a bd, asyncDispatch s (.addAccount a) ⟨none, bd⟩ = appReducer s (.addAccount a)) ∧
    (∀ a e bd, asyncDispatch s (.updateAccount a) ⟨some e, bd⟩
        = appReducer (appReducer s (.updateAccount a)) (.setError .accounts (some e))) ∧
    (∀ a bd, asyncDispatch s (.updateAccount a) ⟨none, bd⟩ = appReducer s (.updateAccount a)) ∧
    (∀ i e bd, asyncDispatch s (.deleteAccount i) ⟨some e, bd⟩
        = appReducer (appReducer s (.deleteAccount i)) (.setError .accounts (some e))) ∧
    (∀ i bd, asyncDispatch s (.deleteAccount i) ⟨none, bd⟩ = appReducer s (.deleteAccount i)) ∧
    (∀ b e bd, asyncDispatch s (.addBudget b) ⟨some e, bd⟩
        = appReducer s (.setError .budgets (some e))) ∧
    (∀ b e bd, (asyncDispatch s (.addBudget b) ⟨some e, bd⟩).budgets = s.budgets) ∧
    (∀ b d, asyncDispatch s (.addBudget b) ⟨none, some d⟩ = appReducer s (.addBudget d)) ∧
    (∀ b, asyncDispatch s (.addBudget b) ⟨none, none⟩ = s) ∧
    (∀ b e bd, asyncDispatch s (.updateBudget b) ⟨some e, bd⟩
        = appReducer s (.setError .budgets (some e))) ∧
    (∀ b e bd, (asyncDispatch s (.updateBudget b) ⟨some e, bd⟩).budgets = s.budgets) ∧
    (∀ b d, asyncDispatch s (.updateBudget b) ⟨none, some d⟩ = appReducer s (.updateBudget d)) ∧
    (∀ b, asyncDispatch s (.updateBudget b) ⟨none, none⟩ = s) ∧
    (∀ i e bd, asyncDispatch s (.deleteBudget i) ⟨some e, bd⟩
        = appReducer s (.setError .budgets (some e))) ∧
    (∀ i e bd, (asyncDispatch s (.deleteBudget i) ⟨some e, bd⟩).budgets = s.budgets) ∧
    (∀ i bd, asyncDispatch s (.deleteBudget i) ⟨none, bd⟩ = appReducer s (.deleteBudget i)) := by
  repeat' apply And.intro
  all_goals intros
  all_goals rfl

/-- C5: with no authenticated session, each of the sixteen adapter
operations returns a null-data response with the error string
User not authenticated, leaves the store untouched, and issues no request. -/
theorem c5_unauthenticated_gate (store : Store) (now fid id : String)
    (t : Transaction) (c : Category) (a : Account) (b : Budget)
    (tp : TxnPatch) (cp : CatPatch) (ap : AcctPatch) (bp : BudgetPatch) :
    fetchTransactions none store
      = ({ data := none, error := some "User not authenticated" }, store, []) ∧
    createTransaction none now store t
      = ({ data := none, error := some "User not authenticated" }, store, []) ∧
    updateTransaction none now store id tp
      = ({ data := none, error := some "User not authenticated" }, store, []) ∧
    deleteTransaction none store id = (some "User not authenticated", store, []) ∧
    fetchCategories none store
      = ({ data := none, error := some "User not authenticated" }, store, []) ∧
    createCategory none now store c
      = ({ data := none, error := some "User not authenticated" }, store, []) ∧
    updateCategory none now store id cp
      = ({ data := none, error := some "User not authenticated" }, store, []) ∧
    deleteCategory none store id = (some "User not authenticated", store, []) ∧
    fetchAccounts none store
      = ({ data := none, error := some "User not authenticated" }, store, []) ∧
    createAccount none now store a
      = ({ data := none, error := some "User not authenticated" }, store, []) ∧
    updateAccount none now store id ap
      = ({ data := none, error := some "User not authenticated" }, store, []) ∧
    deleteAccount none store id = (some "User not authenticated", store, []) ∧
    fetchBudgets none store
      = ({ data := none, error := some "User not authenticated" }, store, []) ∧
    createBudget none fid now store b
      = ({ data := none, error := some "User not authenticated" }, store, []) ∧
    updateBudget none now store id bp
      = ({ data := none, error := some "User not authenticated" }, store, []) ∧
    deleteBudget none store id = (some "User not authenticated", store, []) := by
  repeat' apply And.intro
  all_goals rfl

/-- C7: for every reference day, the weekly range starts on a Sunday, ends
on the following Saturday, spans exactly 7 days inclusive, and contains the
reference day. -/
theorem c7_weekly_range_sunday (d : Int) :
    jsGetDay (getDateRangeWeekly d).1 = 0 ∧
    jsGetDay (getDateRangeWeekly d).2 = 6 ∧
    (getDateRangeWeekly d).2 = (getDateRangeWeekly d).1 + 6 ∧
    (getDateRangeWeekly d).1 ≤ d ∧ d ≤ (getDateRangeWeekly d).2 := by
  simp only [getDateRangeWeekly, jsGetDay]
  omega

/-- C8: the budget form limit validation (required plus a min rule with
value 0) accepts a zero limit, although its own failure message reads Limit
must be positive; a negative limit and a missing value are rejected. This
contradicts the claim that zero is rejected before any state mutation. -/
theorem c8_zero_limit_accepted :
    limitFieldPasses (some 0) = true ∧
    limitFieldPasses (some (-1)) = false ∧
    limitFieldPasses none = false := by
  decide

/-- Pulling the accumulator out of the amount-sum fold used by
calculateTotalIncome and calculateTotalExpenses. -/
theorem sumFold_shift (l : List Transaction) (i : ℚ) :
    l.foldl (fun total transaction => total + transaction.amount) i
      = i + l.foldl (fun total transaction => total + transaction.amount) 0 := by
  induction l generalizing i with
  | nil => simp
  | cons t l ih =>
    simp only [List.foldl_cons]
    rw [ih (i + t.amount), ih (0 + t.amount)]
    ring

/-- Pulling the accumulator out of the balance fold. -/
theorem balFold_shift (l : List Transaction) (i : ℚ) :
    l.foldl (fun balance transaction =>
        if transaction.type = TransactionType.income then balance + transaction.amount
        else if transaction.type = TransactionType.expense then balance - transaction.amount
        else balance) i
      = i + l.foldl (fun balance transaction =>
        if transaction.type = TransactionType.income then balance + transaction.amount
        else if transaction.type = TransactionType.expense then balance - transaction.amount
        else balance) 0 := by
  induction l generalizing i with
  | nil => simp
  | cons t l ih =>
    simp only [List.foldl_cons]
    conv_lhs => rw [ih]
    conv_rhs => rw [ih]
    rcases h : t.type <;> simp [h] <;> ring

/-- One step of calculateBalance. -/
theorem calculateBalance_cons (t : Transaction) (T : List Transaction) :
    calculateBalance (t :: T)
      = (if t.type = TransactionType.income then t.amount
         else if t.type = TransactionType.expense then -t.amount else 0)
        + calculateBalance T := by
  simp only [calculateBalance, List.foldl_cons]
  rw [balFold_shift]
  rcases h : t.type <;> simp [h]

/-- One step of calculateTotalIncome. -/
theorem calculateTotalIncome_cons (t : Transaction) (T : List Transaction) :
    calculateTotalIncome (t :: T)
      = (if t.type = TransactionType.income then t.amount else 0)
        + calculateTotalIncome T := by
  simp only [calculateTotalIncome, List.filter_cons]
  rcases h : t.type <;> simp [h]
  rw [sumFold_shift]

/-- One step of calculateTotalExpenses. -/
theorem calculateTotalExpenses_cons (t : Transaction) (T : List Transaction) :
    calculateTotalExpenses (t :: T)
      = (if t.type = TransactionType.expense then t.amount else 0)
        + calculateTotalExpenses T := by
  simp only [calculateTotalExpenses, List.filter_cons]
  rcases h : t.type <;> simp [h]
  rw [sumFold_shift]

/-- C2: balance is total income minus total expenses; a transfer
transaction inserted anywhere contributes 0 to all three aggregates; all
three are 0 on the empty list. -/
theorem c2_balance_identity :
    (∀ T, calculateBalance T = calculateTotalIncome T - calculateTotalExpenses T) ∧
    calculateBalance [] = 0 ∧
    calculateTotalIncome [] = 0 ∧
    calculateTotalExpenses [] = 0 ∧
    (∀ t l r, t.type = TransactionType.transfer →
      calculateBalance (l ++ t :: r) = calculateBalance (l ++ r) ∧
      calculateTotalIncome (l ++ t :: r) = calculateTotalIncome (l ++ r) ∧
      calculateTotalExpenses (l ++ t :: r) = calculateTotalExpenses (l ++ r)) := by
  refine ⟨?_, rfl, rfl, rfl, ?_⟩
  · intro T
    induction T with
    | nil => simp [calculateBalance, calculateTotalIncome, calculateTotalExpenses]
    | cons t T ih =>
      rw [calculateBalance_cons, calculateTotalIncome_cons, calculateTotalExpenses_cons, ih]
      rcases h : t.type <;> simp [h] <;> ring
  · intro t l r h
    refine ⟨?_, ?_, ?_⟩
    · simp [calculateBalance, List.foldl_append, List.foldl_cons, h]
    · simp [calculateTotalIncome, List.filter_append, List.filter_cons, h]
    · simp [calculateTotalExpenses, List.filter_append, List.filter_cons, h]

/-- Witness for C2 at a concrete transfer transaction. -/
theorem c2_balance_identity_witness :
    calculateBalance
        [{ id := "w1", amount := 5, type := TransactionType.transfer, category := "c",
           account := "a", date := 0, note := none, created_at := "", updated_at := "" }]
      = calculateBalance [] :=
  (c2_balance_identity.2.2.2.2
    { id := "w1", amount := 5, type := TransactionType.transfer, category := "c",
      account := "a", date := 0, note := none, created_at := "", updated_at := "" }
    [] [] rfl).1

/-- Everything except the transactions collection is unchanged. -/
def onlyTransactionsChanged (s s' : AppState) : Prop :=
  s'.categories = s.categories ∧ s'.accounts = s.accounts ∧ s'.budgets = s.budgets ∧
  s'.filterState = s.filterState ∧ s'.currentPeriod = s.currentPeriod ∧
  s'.isLoading = s.isLoading ∧ s'.errors = s.errors

/-- Everything except the categories collection is unchanged. -/
def onlyCategoriesChanged (s s' : AppState) : Prop :=
  s'.transactions = s.transactions ∧ s'.accounts = s.accounts ∧ s'.budgets = s.budgets ∧
  s'.filterState = s.filterState ∧ s'.currentPeriod = s.currentPeriod ∧
  s'.isLoading = s.isLoading ∧ s'.errors = s.errors

/-- Everything except the accounts collection is unchanged. -/
def onlyAccountsChanged (s s' : AppState) : Prop :=
  s'.transactions = s.transactions ∧ s'.categories = s.categories ∧ s'.budgets = s.budgets ∧
  s'.filterState = s.filterState ∧ s'.currentPeriod = s.currentPeriod ∧
  s'.isLoading = s.isLoading ∧ s'.errors = s.errors

/-- Everything except the budgets collection is unchanged. -/
def onlyBudgetsChanged (s s' : AppState) : Prop :=
  s'.transactions = s.transactions ∧ s'.categories = s.categories ∧ s'.accounts = s.accounts ∧
  s'.filterState = s.filterState ∧ s'.currentPeriod = s.currentPeriod ∧
  s'.isLoading = s.isLoading ∧ s'.errors = s.errors

/-- Everything except the loading flags is unchanged. -/
def onlyLoadingChanged (s s' : AppState) : Prop :=
  s'.transactions = s.transactions ∧ s'.categories = s.categories ∧ s'.accounts = s.accounts ∧
  s'.budgets = s.budgets ∧ s'.filterState = s.filterState ∧
  s'.currentPeriod = s.currentPeriod ∧ s'.errors = s.errors

/-- Everything except the error map is unchanged. -/
def onlyErrorsChanged (s s' : AppState) : Prop :=
  s'.transactions = s.transactions ∧ s'.categories = s.categories ∧ s'.accounts = s.accounts ∧
  s'.budgets = s.budgets ∧ s'.filterState = s.filterState ∧
  s'.currentPeriod = s.currentPeriod ∧ s'.isLoading = s.isLoading

/-- Everything except the filter state is unchanged. -/
def onlyFilterChanged (s s' : AppState) : Prop :=
  s'.transactions = s.transactions ∧ s'.categories = s.categories ∧ s'.accounts = s.accounts ∧
  s'.budgets = s.budgets ∧ s'.currentPeriod = s.currentPeriod ∧
  s'.isLoading = s.isLoading ∧ s'.errors = s.errors

/-- Everything except the current period is unchanged. -/
def onlyPeriodChanged (s s' : AppState) : Prop :=
  s'.transactions = s.transactions ∧ s'.categories = s.categories ∧ s'.accounts = s.accounts ∧
  s'.budgets = s.budgets ∧ s'.filterState = s.filterState ∧
  s'.isLoading = s.isLoading ∧ s'.errors = s.errors

/-- C9: every reducer action touches only the state component it targets;
SET_FILTER_STATE merges only the payload fields that are present, each
resulting filter field being the payload value when present and the old
value otherwise; an unrecognized action returns the state unchanged. -/
theorem c9_reducer_frame (s : AppState) :
    (∀ l, onlyTransactionsChanged s (appReducer s (.setTransactions l))) ∧
    (∀ t, onlyTransactionsChanged s (appReducer s (.addTransaction t))) ∧
    (∀ t, onlyTransactionsChanged s (appReducer s (.updateTransaction t))) ∧
    (∀ i, onlyTransactionsChanged s (appReducer s (.deleteTransaction i))) ∧
    (∀ l, onlyCategoriesChanged s (appReducer s (.setCategories l))) ∧
    (∀ c, onlyCategoriesChanged s (appReducer s (.addCategory c))) ∧
    (∀ c, onlyCategoriesChanged s (appReducer s (.updateCategory c))) ∧
    (∀ i, onlyCategoriesChanged s (appReducer s (.deleteCategory i))) ∧
    (∀ l, onlyAccountsChanged s (appReducer s (.setAccounts l))) ∧
    (∀ a, onlyAccountsChanged s (appReducer s (.addAccount a))) ∧
    (∀ a, onlyAccountsChanged s (appReducer s (.updateAccount a))) ∧
    (∀ i, onlyAccountsChanged s (appReducer s (.deleteAccount i))) ∧
    (∀ l, onlyBudgetsChanged s (appReducer s (.setBudgets l))) ∧
    (∀ b, onlyBudgetsChanged s (appReducer s (.addBudget b))) ∧
    (∀ b, onlyBudgetsChanged s (appReducer s (.updateBudget b))) ∧
    (∀ i, onlyBudgetsChanged s (appReducer s (.deleteBudget i))) ∧
    (∀ k v, onlyLoadingChanged s (appReducer s (.setLoading k v))) ∧
    (∀ k v, onlyErrorsChanged s (appReducer s (.setError k v))) ∧
    (∀ d, onlyPeriodChanged s (appReducer s (.setCurrentPeriod d))) ∧
    (∀ p, onlyFilterChanged s (appReducer s (.setFilterState p))) ∧
    (∀ p, (appReducer s (.setFilterState p)).filterState.period
        = p.period.getD s.filterState.period) ∧
    (∀ p, (appReducer s (.setFilterState p)).filterState.startDate
        = p.startDate.getD s.filterState.startDate) ∧
    (∀ p, (appReducer s (.setFilterState p)).filterState.endDate
        = p.endDate.getD s.filterState.endDate) ∧
    (∀ p, (appReducer s (.setFilterState p)).filterState.showTotal
        = p.showTotal.getD s.filterState.showTotal) ∧
    (∀ p, (appReducer s (.setFilterState p)).filterState.carryOver
        = p.carryOver.getD s.filterState.carryOver) ∧
    (∀ p, (appReducer s (.setFilterState p)).filterState.searchQuery
        = p.searchQuery.getD s.filterState.searchQuery) ∧
    appReducer s .unrecognized = s := by
  repeat' apply And.intro
  all_goals intros
  all_goals first
    | rfl
    | exact ⟨rfl, rfl, rfl, rfl, rfl, rfl, rfl⟩

/-- The budgets table kept by updateBudget, before and after: the rows
matching id and owner receive the forwarded update record, the rest are
untouched. -/
theorem updateBudget_store_budgets (u now id : String) (store : Store) (p : BudgetPatch) :
    (updateBudget (some u) now store id p).2.1.budgets
      = store.budgets.map
          (fun r => if r.id = id ∧ r.user_id = u then applyBudgetPatch r p now else r) := by
  rcases hfind : store.budgets.find? (fun r => r.id = id ∧ r.user_id = u) with _ | r <;>
    simp only [updateBudget, hfind]

/-- The stored spent column survives the row update unchanged. -/
theorem map_spent_after_patch (l : List BudgetRow) (p : BudgetPatch) (now id u : String) :
    l.map ((fun r => r.spent)
        ∘ (fun r => if r.id = id ∧ r.user_id = u then applyBudgetPatch r p now else r))
      = l.map (fun r => r.spent) := by
  induction l with
  | nil => rfl
  | cons r l ih =>
    simp only [List.map_cons, ih, List.cons.injEq, and_true]
    by_cases hc : (r.id = id ∧ r.user_id = u) <;>
      simp [hc, applyBudgetPatch, Function.comp]

/-- C10: updateBudget forwards to the store only updated_at plus the
mapped limit (as budget_limit), category_id and month when present: its whole
result is unchanged when every other payload field is dropped; the stored
spent column is never modified; and the record it returns carries the spent
of the stored row (defaulted to 0), not anything from the payload. -/
theorem c10_update_budget_discards_derived (uid : Option String) (u now id : String)
    (store : Store) (p : BudgetPatch) :
    updateBudget uid now store id p
      = updateBudget uid now store id
          { limit := p.limit, category_id := p.category_id, month := p.month } ∧
    ((updateBudget uid now store id p).2.1.budgets.map (fun r => r.spent)
      = store.budgets.map (fun r => r.spent)) ∧
    (((updateBudget (some u) now store id p).1.data).map (fun rb => rb.spent)
      = (store.budgets.find? (fun r => r.id = id ∧ r.user_id = u)).map
          (fun r => some (r.spent.getD 0))) := by
  refine ⟨?_, ?_, ?_⟩
  · cases uid <;> rfl
  · cases uid with
    | none => rfl
    | some u' =>
      rw [updateBudget_store_budgets, List.map_map]
      exact map_spent_after_patch store.budgets p now id u'
  · rcases hfind : store.budgets.find? (fun r => r.id = id ∧ r.user_id = u) with _ | r <;>
      simp only [updateBudget, hfind] <;>
      simp [mapBudgetRow, applyBudgetPatch]

/-- Characterization of the filter predicate: a transaction passes iff its
date lies in the inclusive range and, unless the search query is empty, the
lowercased query occurs in its lowercased note (which requires a note to be
present) or in its lowercased category name. -/
theorem txnMatchesFilter_eq_true_iff (fs : FilterState) (t : Transaction) :
    txnMatchesFilter fs t = true ↔
      ((fs.startDate ≤ t.date ∧ t.date ≤ fs.endDate) ∧
        (fs.searchQuery = "" ∨
          (∃ n, t.note = some n ∧
            strIncludes n.toLower fs.searchQuery.toLower = true) ∨
          strIncludes t.category.toLower fs.searchQuery.toLower = true)) := by
  unfold txnMatchesFilter
  rcases hn : t.note with _ | n <;>
    by_cases h1 : t.date < fs.startDate <;>
    by_cases h2 : fs.endDate < t.date <;>
    by_cases h3 : fs.searchQuery = "" <;>
    simp [h1, h2, h3, hn] <;>
    omega

/-- C3: the filtered-transactions selector returns exactly the
transactions inside the inclusive date range that, when a non-empty search
query is set, match it on the note or on the category (a transaction with no
note cannot match on the note side); with an empty query the result is
exactly the date-range subset, computed with a predicate that reads nothing
but the date. -/
theorem c3_filtered_transactions (st : AppState) :
    (∀ t, t ∈ useFilteredTransactions st ↔
      (t ∈ st.transactions ∧
        ((st.filterState.startDate ≤ t.date ∧ t.date ≤ st.filterState.endDate) ∧
          (st.filterState.searchQuery = "" ∨
            (∃ n, t.note = some n ∧
              strIncludes n.toLower st.filterState.searchQuery.toLower = true) ∨
            strIncludes t.category.toLower st.filterState.searchQuery.toLower = true)))) ∧
    (st.filterState.searchQuery = "" →
      useFilteredTransactions st
        = st.transactions.filter
            (fun t => decide (st.filterState.startDate ≤ t.date)
              && decide (t.date ≤ st.filterState.endDate))) := by
  constructor
  · intro t
    rw [useFilteredTransactions, List.mem_filter, txnMatchesFilter_eq_true_iff]
  · intro h3
    unfold useFilteredTransactions
    apply List.filter_congr
    intro t _
    unfold txnMatchesFilter
    by_cases h1 : t.date < st.filterState.startDate <;>
      by_cases h2 : st.filterState.endDate < t.date <;>
      simp [h1, h2, h3] <;>
      try omega

/-- A concrete state used to instantiate the C3 selector theorem. -/
def c3DemoState : AppState :=
  { filterState :=
      { period := PeriodType.monthly, startDate := 0, endDate := 10,
        showTotal := true, carryOver := true, searchQuery := "" }
    currentPeriod := 0
    transactions :=
      [{ id := "t1", amount := 5, type := TransactionType.expense, category := "Food",
         account := "Cash", date := 5, note := some "lunch", created_at := "", updated_at := "" },
       { id := "t2", amount := 3, type := TransactionType.income, category := "Pay",
         account := "Cash", date := 25, note := none, created_at := "", updated_at := "" }]
    categories := []
    accounts := []
    budgets := []
    isLoading := { transactions := false, categories := false, accounts := false, budgets := false }
    errors := { transactions := none, categories := none, accounts := none, budgets := none } }

/-- Witness for C3 at a concrete state with an empty search query. -/
theorem c3_filtered_transactions_witness :
    c3DemoState.filterState.searchQuery = "" ∧
    useFilteredTransactions c3DemoState
      = c3DemoState.transactions.filter
          (fun t => decide (c3DemoState.filterState.startDate ≤ t.date)
            && decide (t.date ≤ c3DemoState.filterState.endDate)) :=
  ⟨rfl, (c3_filtered_transactions c3DemoState).2 rfl⟩

/-- C4: a budget-form submission that would create a new budget (no
existing budget id) for a (category_id, month) pair already present in the
state is rejected before anything happens: onSubmit returns none, so onSave
is never invoked, no action is dispatched, no remote call is made, and the
state is unchanged. -/
theorem c4_duplicate_budget_rejected (st : AppState) (fid now : String) (d : BudgetFormData)
    (h : ∃ b ∈ st.budgets, b.category_id = d.category_id ∧ b.month = d.month) :
    onSubmit st.budgets none fid now d = none ∧
    ∀ r, submitNewBudget st fid now d r = st := by
  have hfind : (st.budgets.find?
      (fun b => b.category_id = d.category_id ∧ b.month = d.month)).isSome := by
    rw [List.find?_isSome]
    obtain ⟨b, hb, h1, h2⟩ := h
    exact ⟨b, hb, by simp [h1, h2]⟩
  have hnone : onSubmit st.budgets none fid now d = none := by
    unfold onSubmit
    simp only [budgetHasId, Bool.not_false, Bool.and_true, hfind, if_pos]
  refine ⟨hnone, fun r => ?_⟩
  simp [submitNewBudget, hnone]

/-- A concrete state holding one budget, used to instantiate C4. -/
def c4DemoState : AppState :=
  { filterState :=
      { period := PeriodType.monthly, startDate := 0, endDate := 10,
        showTotal := true, carryOver := true, searchQuery := "" }
    currentPeriod := 0
    transactions := []
    categories := []
    accounts := []
    budgets :=
      [{ id := "b1", category_id := "food", category_name := some "Food", limit := 200,
         spent := some 50, remaining := some 150, month := "2024-03",
         created_at := "", updated_at := "" }]
    isLoading := { transactions := false, categories := false, accounts := false, budgets := false }
    errors := { transactions := none, categories := none, accounts := none, budgets := none } }

/-- Witness for C4: submitting a second budget for the same category and
month as the stored one changes nothing. -/
theorem c4_duplicate_budget_rejected_witness :
    onSubmit c4DemoState.budgets none "f1" "now"
        { category_id := "food", limit := 300, month := "2024-03" } = none ∧
    ∀ r, submitNewBudget c4DemoState "f1" "now"
        { category_id := "food", limit := 300, month := "2024-03" } r = c4DemoState :=
  c4_duplicate_budget_rejected c4DemoState "f1" "now"
    { category_id := "food", limit := 300, month := "2024-03" }
    ⟨{ id := "b1", category_id := "food", category_name := some "Food", limit := 200,
       spent := some 50, remaining := some 150, month := "2024-03",
       created_at := "", updated_at := "" }, by simp [c4DemoState], rfl, rfl⟩

/-- C6: the budget limit round-trips through the adapter's internal
budget_limit column. createBudget persists the payload limit under
budget_limit and returns a record with limit mirrored back, spent defaulted
to 0 and remaining = limit - spent; updateBudget persists a present payload
limit the same way and returns the stored limit, with remaining = limit -
spent; every record fetchBudgets returns carries the stored budget_limit as
its limit, spent defaulted to 0, and remaining = limit - spent; and a limit
written by create is read back unchanged by fetch. -/
theorem c6_budget_limit_roundtrip :
    (∀ (u fid now : String) (store : Store) (b : Budget),
      (createBudget (some u) fid now store b).2.1.budgets
        = store.budgets ++
            [{ id := fid, user_id := u, category_id := b.category_id,
               budget_limit := b.limit, spent := none, month := b.month,
               created_at := now, updated_at := now }]) ∧
    (∀ (u fid now : String) (store : Store) (b : Budget),
      ∃ rb, (createBudget (some u) fid now store b).1.data = some rb ∧
        rb.limit = b.limit ∧ rb.spent = some 0 ∧ rb.remaining = some b.limit) ∧
    (∀ (u now id : String) (store : Store) (p : BudgetPatch),
      ((updateBudget (some u) now store id p).1.data).map (fun rb => rb.limit)
        = (store.budgets.find? (fun r => r.id = id ∧ r.user_id = u)).map
            (fun r => p.limit.getD r.budget_limit)) ∧
    (∀ (u now id : String) (store : Store) (p : BudgetPatch) (rb : Budget),
      (updateBudget (some u) now store id p).1.data = some rb →
        rb.remaining = some (rb.limit - rb.spent.getD 0)) ∧
    (∀ (u : String) (store : Store) (rb : Budget),
      rb ∈ ((fetchBudgets (some u) store).1.data.getD []) →
        ∃ row ∈ store.budgets, row.user_id = u ∧ rb.limit = row.budget_limit ∧
          rb.spent = some (row.spent.getD 0) ∧
          rb.remaining = some (rb.limit - row.spent.getD 0)) ∧
    (∀ (u fid now : String) (store : Store) (b : Budget),
      ∃ rb ∈ ((fetchBudgets (some u)
          (createBudget (some u) fid now store b).2.1).1.data.getD []),
        rb.id = fid ∧ rb.limit = b.limit) := by
  refine ⟨?_, ?_, ?_, ?_, ?_, ?_⟩
  · intro u fid now store b
    rfl
  · intro u fid now store b
    refine ⟨_, rfl, rfl, rfl, ?_⟩
    simp [mapBudgetRow]
  · intro u now id store p
    rcases hfind : store.budgets.find? (fun r => r.id = id ∧ r.user_id = u) with _ | r <;>
      simp only [updateBudget, hfind] <;>
      simp [mapBudgetRow, applyBudgetPatch]
  · intro u now id store p rb h
    rcases hfind : store.budgets.find? (fun r => r.id = id ∧ r.user_id = u) with _ | r <;>
      simp only [updateBudget, hfind] at h
    · simp at h
    · rw [Option.some_inj] at h
      subst h
      simp [mapBudgetRow]
  · intro u store rb hrb
    simp only [fetchBudgets] at hrb
    rw [Option.getD_some, List.mem_map] at hrb
    obtain ⟨row, hrowmem, rfl⟩ := hrb
    rw [List.mem_mergeSort, List.mem_filter] at hrowmem
    obtain ⟨hmem, hpred⟩ := hrowmem
    exact ⟨row, hmem, of_decide_eq_true hpred, rfl, rfl, rfl⟩
  · intro u fid now store b
    refine ⟨mapBudgetRowFetch
      { id := fid, user_id := u, category_id := b.category_id,
        budget_limit := b.limit, spent := none, month := b.month,
        created_at := now, updated_at := now }, ?_, rfl, rfl⟩
    simp only [createBudget, fetchBudgets]
    rw [Option.getD_some]
    apply List.mem_map_of_mem
    rw [List.mem_mergeSort, List.mem_filter]
    exact ⟨by simp, by simp⟩

/-- A concrete stored budget row used to instantiate C6. -/
def c6DemoRow : BudgetRow :=
  { id := "b1", user_id := "u", category_id := "food", budget_limit := 7,
    spent := none, month := "2024-03", created_at := "t0", updated_at := "t0" }

/-- A concrete store holding that single budget row. -/
def c6DemoStore : Store :=
  { transactions := [], categories := [], accounts := [], budgets := [c6DemoRow] }

/-- Witness for C6 at the concrete store: the record returned by a
concrete update satisfies the remaining identity, and the record fetched
back is traceable to the stored row. -/
theorem c6_budget_limit_roundtrip_witness :
    ((mapBudgetRow (applyBudgetPatch c6DemoRow { limit := some 9 } "t1")).remaining
      = some ((mapBudgetRow (applyBudgetPatch c6DemoRow { limit := some 9 } "t1")).limit
          - (mapBudgetRow (applyBudgetPatch c6DemoRow { limit := some 9 } "t1")).spent.getD 0)) ∧
    (∃ row ∈ c6DemoStore.budgets, row.user_id = "u" ∧
        (mapBudgetRowFetch c6DemoRow).limit = row.budget_limit ∧
        (mapBudgetRowFetch c6DemoRow).spent = some (row.spent.getD 0) ∧
        (mapBudgetRowFetch c6DemoRow).remaining
          = some ((mapBudgetRowFetch c6DemoRow).limit - row.spent.getD 0)) :=
  ⟨c6_budget_limit_roundtrip.2.2.2.1 "u" "t1" "b1" c6DemoStore { limit := some 9 }
      (mapBudgetRow (applyBudgetPatch c6DemoRow { limit := some 9 } "t1")) rfl,
   c6_budget_limit_roundtrip.2.2.2.2.1 "u" c6DemoStore (mapBudgetRowFetch c6DemoRow)
      (by simp [fetchBudgets, c6DemoStore, c6DemoRow])⟩
